import Mathlib

/-
Shallow embedding of the `Renderer` component of the ruskel repository
(crates/libruskel/src/render.rs) and proofs about it.

The embedding models the rustdoc-derived document model (`rustdoc_types`
values: items, type expressions, generics, imports, impls) as Lean
inductive types, with item identifiers as natural numbers and the crate
index as an association list.  Every `render_*` function below is a direct
translation of the corresponding Rust function of the same name; Rust
`format!` templates become string concatenations, `for` loops that push
onto an output buffer become recursive concatenation over lists, and the
external text formatter (`RustFmt`) is abstracted as a function parameter.
The recursion through the item graph (render_item / render_module /
render_import) is not structurally terminating on a cyclic index, exactly
as in the source; it is made total here with an explicit fuel parameter
that the source does not need on the acyclic models it receives.
-/

namespace Ruskel

/-- Rust `str::lines`: split on newline, final line ending optional,
trailing carriage returns stripped. -/
def rust_lines (s : String) : List String :=
  let parts := s.splitOn "\n"
  let parts := if parts.getLast? = some "" then parts.dropLast else parts
  parts.map (fun l => if l.endsWith "\r" then String.dropRight l 1 else l)

/-- Character-level worker for `last_segment`: splits on "::" like Rust
`str::split("::")`, scanning left to right, and keeps the segments.
Fuel-structural so that it reduces definitionally. -/
def split_colons : Nat → List Char → List (List Char)
  | 0, l => [l]
  | _ + 1, [] => [[]]
  | f + 1, ':' :: ':' :: rest => [] :: split_colons f rest
  | f + 1, c :: rest =>
      match split_colons f rest with
      | [] => [[c]]
      | s :: ss => (c :: s) :: ss

/-- Rust `s.split("::").last().unwrap_or(s)`. -/
def last_segment (s : String) : String :=
  match (split_colons s.data.length s.data).getLast? with
  | some seg => String.mk seg
  | none => s

/-- Character-level worker for `replace_dollar_crate`. -/
def strip_crate_go : Nat → List Char → List Char
  | 0, l => l
  | _ + 1, [] => []
  | f + 1, c :: rest =>
      if List.isPrefixOf "$crate::".data (c :: rest) then
        strip_crate_go f ((c :: rest).drop 8)
      else
        c :: strip_crate_go f rest

/-- Rust `s.replace("$crate::", "")`: remove every occurrence of the
macro-hygiene path prefix token. -/
def replace_dollar_crate (s : String) : String :=
  String.mk (strip_crate_go s.data.length s.data)

/-- Concatenation of the strings produced for each element of a list, in
order; this is the embedding of a Rust `for` loop that `push_str`s each
rendering of each element onto the output buffer. -/
def concat_map (f : α → String) : List α → String
  | [] => ""
  | x :: xs => f x ++ concat_map f xs

/-- rustdoc `Constant`: only the `expr` field is read by the renderer. -/
structure ConstantExpr where
  expr : String
deriving DecidableEq

/-- rustdoc `TraitBoundModifier`. -/
inductive TraitBoundModifier where
  | none
  | maybe
  | maybeConst
deriving DecidableEq

mutual

/-- rustdoc `Type` (named `Ty` here since `Type` is a Lean keyword). -/
inductive Ty where
  | resolvedPath (path : RPath)
  | dynTrait (dt : DynTrait)
  | generic (s : String)
  | primitive (s : String)
  | functionPointer (f : FunctionPointer)
  | tuple (types : List Ty)
  | slice (ty : Ty)
  | array (type_ : Ty) (len : String)
  | implTrait (bounds : List GenericBound)
  | infer
  | rawPointer (mutable : Bool) (type_ : Ty)
  | borrowedRef (lifetime : Option String) (mutable : Bool) (type_ : Ty)
  | qualifiedPath (name : String) (args : GenericArgs) (selfType : Ty) (trait_ : Option RPath)
  | pat

/-- rustdoc `Path` (named `RPath` to avoid clashing with the Mathlib `Path`);
only the `name` and `args` fields are read by the renderer. -/
inductive RPath where
  | mk (name : String) (args : Option GenericArgs)

/-- rustdoc `GenericArgs`. -/
inductive GenericArgs where
  | angleBracketed (args : List GenericArg) (bindings : List TypeBinding)
  | parenthesized (inputs : List Ty) (output : Option Ty)

/-- rustdoc `GenericArg`. -/
inductive GenericArg where
  | lifetime (lt : String)
  | type (ty : Ty)
  | const (c : ConstantExpr)
  | infer

/-- rustdoc `TypeBinding`: the renderer reads `name` and `binding`. -/
inductive TypeBinding where
  | mk (name : String) (binding : TypeBindingKind)

/-- rustdoc `TypeBindingKind`. -/
inductive TypeBindingKind where
  | equality (term : Term)
  | constraint (bounds : List GenericBound)

/-- rustdoc `Term`. -/
inductive Term where
  | type (ty : Ty)
  | constant (c : ConstantExpr)

/-- rustdoc `GenericBound`. -/
inductive GenericBound where
  | traitBound (trait_ : RPath) (genericParams : List GenericParamDef)
      (modifier : TraitBoundModifier)
  | outlives (lt : String)

/-- rustdoc `GenericParamDef`. -/
inductive GenericParamDef where
  | mk (name : String) (kind : GenericParamDefKind)

/-- rustdoc `GenericParamDefKind`. -/
inductive GenericParamDefKind where
  | lifetime (outlives : List String)
  | type (bounds : List GenericBound) (default : Option Ty) (synthetic : Bool)
  | const (type_ : Ty) (default : Option String)

/-- rustdoc `PolyTrait`. -/
inductive PolyTrait where
  | mk (trait_ : RPath) (genericParams : List GenericParamDef)

/-- rustdoc `DynTrait`. -/
inductive DynTrait where
  | mk (traits : List PolyTrait) (lifetime : Option String)

/-- rustdoc `FunctionPointer`: the renderer reads only `decl`. -/
inductive FunctionPointer where
  | mk (decl : FnDecl)

/-- rustdoc `FnDecl`: named inputs and optional output type. -/
inductive FnDecl where
  | mk (inputs : List (String × Ty)) (output : Option Ty)

end

def RPath.name : RPath → String
  | .mk n _ => n

def RPath.args : RPath → Option GenericArgs
  | .mk _ a => a

def DynTrait.lifetime : DynTrait → Option String
  | .mk _ lt => lt

def DynTrait.traits : DynTrait → List PolyTrait
  | .mk ts _ => ts

mutual

/-- Embeds `Renderer::render_type_inner`. -/
def render_type_inner : Ty → Bool → String
  | Ty.resolvedPath (RPath.mk name args), _ =>
      replace_dollar_crate name ++ render_opt_generic_args args
  | Ty.dynTrait (DynTrait.mk traits lifetime), nested =>
      let traitsStr := String.intercalate " + " (render_poly_trait_list traits)
      let ltStr := match lifetime with
        | some lt => " + " ++ lt
        | none => ""
      let inner := "dyn " ++ traitsStr ++ ltStr
      if nested && lifetime.isSome then "(" ++ inner ++ ")" else inner
  | Ty.generic s, _ => s
  | Ty.primitive s, _ => s
  | Ty.functionPointer f, _ => render_function_pointer f
  | Ty.tuple types, _ =>
      "(" ++ String.intercalate ", " (render_type_list_nested types) ++ ")"
  | Ty.slice ty, _ => "[" ++ render_type_inner ty true ++ "]"
  | Ty.array type_ len, _ => "[" ++ render_type_inner type_ true ++ "; " ++ len ++ "]"
  | Ty.implTrait bounds, _ =>
      "impl " ++ String.intercalate " + " (render_generic_bound_list bounds)
  | Ty.infer, _ => "_"
  | Ty.rawPointer mutable type_, _ =>
      "*" ++ (if mutable then "mut" else "const") ++ " " ++ render_type_inner type_ true
  | Ty.borrowedRef lifetime mutable type_, _ =>
      let ltStr := match lifetime with
        | some lt => lt ++ " "
        | none => ""
      let mutStr := if mutable then "mut " else ""
      "&" ++ ltStr ++ mutStr ++ render_type_inner type_ true
  | Ty.qualifiedPath name args selfType trait_, _ =>
      let selfTypeStr := render_type_inner selfType true
      let argsStr := render_generic_args args
      match trait_ with
      | some t =>
          let traitPath := render_path t
          if traitPath ≠ "" then
            "<" ++ selfTypeStr ++ " as " ++ traitPath ++ ">::" ++ name ++ argsStr
          else
            selfTypeStr ++ "::" ++ name ++ argsStr
      | none => selfTypeStr ++ "::" ++ name ++ argsStr
  | Ty.pat, _ => "/* pattern */"
termination_by ty nested => sizeOf ty
decreasing_by all_goals (simp_wf <;> omega)

/-- The `types.iter().map(|ty| render_type_inner(ty, true))` loop of the
tuple case of `render_type_inner`. -/
def render_type_list_nested : List Ty → List String
  | [] => []
  | t :: ts => render_type_inner t true :: render_type_list_nested ts
termination_by ts => sizeOf ts
decreasing_by all_goals (simp_wf <;> omega)

/-- A `.map(render_type)` loop over a list of types. -/
def render_type_list : List Ty → List String
  | [] => []
  | t :: ts => render_type_inner t false :: render_type_list ts
termination_by ts => sizeOf ts
decreasing_by all_goals (simp_wf <;> omega)

/-- Embeds `Renderer::render_path`. -/
def render_path : RPath → String
  | RPath.mk name args => replace_dollar_crate name ++ render_opt_generic_args args
termination_by p => sizeOf p
decreasing_by all_goals (simp_wf <;> omega)

/-- The `path.args.as_ref().map(render_generic_args).unwrap_or_default()`
idiom of `render_path` and the resolved-path case of `render_type_inner`. -/
def render_opt_generic_args : Option GenericArgs → String
  | some args => render_generic_args args
  | none => ""
termination_by o => sizeOf o
decreasing_by all_goals (simp_wf <;> omega)

/-- Embeds `Renderer::render_generic_args`. -/
def render_generic_args : GenericArgs → String
  | GenericArgs.angleBracketed args bindings =>
      if args.isEmpty && bindings.isEmpty then ""
      else
        let argsStr := String.intercalate ", " (render_generic_arg_list args)
        let bindingsStr := String.intercalate ", " (render_type_binding_list bindings)
        let all :=
          if argsStr = "" then bindingsStr
          else if bindingsStr = "" then argsStr
          else argsStr ++ ", " ++ bindingsStr
        "<" ++ all ++ ">"
  | GenericArgs.parenthesized inputs output =>
      let inputsStr := String.intercalate ", " (render_type_list inputs)
      let outputStr := match output with
        | some ty => " -> " ++ render_type_inner ty false
        | none => ""
      "(" ++ inputsStr ++ ")" ++ outputStr
termination_by a => sizeOf a
decreasing_by all_goals (simp_wf <;> omega)

/-- The `.map(render_generic_arg)` loop of `render_generic_args`. -/
def render_generic_arg_list : List GenericArg → List String
  | [] => []
  | a :: rest => render_generic_arg a :: render_generic_arg_list rest
termination_by l => sizeOf l
decreasing_by all_goals (simp_wf <;> omega)

/-- Embeds `Renderer::render_generic_arg`. -/
def render_generic_arg : GenericArg → String
  | GenericArg.lifetime lt => lt
  | GenericArg.type ty => render_type_inner ty false
  | GenericArg.const c => c.expr
  | GenericArg.infer => "_"
termination_by a => sizeOf a
decreasing_by all_goals (simp_wf <;> omega)

/-- The `.map(render_type_binding)` loop of `render_generic_args`. -/
def render_type_binding_list : List TypeBinding → List String
  | [] => []
  | b :: bs => render_type_binding b :: render_type_binding_list bs
termination_by l => sizeOf l
decreasing_by all_goals (simp_wf <;> omega)

/-- Embeds `Renderer::render_type_binding`. -/
def render_type_binding : TypeBinding → String
  | TypeBinding.mk name binding =>
      let bindingKind := match binding with
        | TypeBindingKind.equality term => " = " ++ render_term term
        | TypeBindingKind.constraint bounds =>
            ": " ++ String.intercalate " + " (render_generic_bound_list bounds)
      name ++ bindingKind
termination_by b => sizeOf b
decreasing_by all_goals (simp_wf <;> omega)

/-- Embeds `Renderer::render_term`. -/
def render_term : Term → String
  | Term.type ty => render_type_inner ty false
  | Term.constant c => c.expr
termination_by t => sizeOf t
decreasing_by all_goals (simp_wf <;> omega)

/-- The `.map(render_generic_bound)` loop underlying
`Renderer::render_generic_bounds` and friends. -/
def render_generic_bound_list : List GenericBound → List String
  | [] => []
  | b :: bs => render_generic_bound b :: render_generic_bound_list bs
termination_by l => sizeOf l
decreasing_by all_goals (simp_wf <;> omega)

/-- Embeds `Renderer::render_generic_bound`. -/
def render_generic_bound : GenericBound → String
  | GenericBound.traitBound trait_ genericParams modifier =>
      let modStr := match modifier with
        | TraitBoundModifier.none => ""
        | TraitBoundModifier.maybe => "?"
        | TraitBoundModifier.maybeConst => "~const"
      modStr ++ render_poly_trait (PolyTrait.mk trait_ genericParams)
  | GenericBound.outlives lt => lt
termination_by b => sizeOf b
decreasing_by all_goals (cases modifier <;> simp_wf <;> omega)

/-- The `.map(render_poly_trait)` loop of the dyn-trait case. -/
def render_poly_trait_list : List PolyTrait → List String
  | [] => []
  | p :: ps => render_poly_trait p :: render_poly_trait_list ps
termination_by l => sizeOf l
decreasing_by all_goals (simp_wf <;> omega)

/-- Embeds `Renderer::render_poly_trait`. -/
def render_poly_trait : PolyTrait → String
  | PolyTrait.mk trait_ genericParams =>
      let gp :=
        if genericParams.isEmpty then ""
        else
          let params := render_generic_param_def_list genericParams
          if params.isEmpty then "" else "for<" ++ String.intercalate ", " params ++ "> "
      gp ++ render_path trait_
termination_by p => sizeOf p
decreasing_by all_goals (simp_wf <;> omega)

/-- The `.filter_map(render_generic_param_def)` loop used by
`render_generics`, `render_poly_trait` and `render_where_predicate`. -/
def render_generic_param_def_list : List GenericParamDef → List String
  | [] => []
  | p :: ps =>
      match render_generic_param_def p with
      | some s => s :: render_generic_param_def_list ps
      | none => render_generic_param_def_list ps
termination_by l => sizeOf l
decreasing_by all_goals (simp_wf <;> omega)

/-- Embeds `Renderer::render_generic_param_def`; synthetic type parameters render
to `None` and are dropped by the filter_map of the callers. -/
def render_generic_param_def : GenericParamDef → Option String
  | GenericParamDef.mk name kind =>
      match kind with
      | GenericParamDefKind.lifetime outlives =>
          let outlivesStr :=
            if outlives.isEmpty then "" else ": " ++ String.intercalate " + " outlives
          some (name ++ outlivesStr)
      | GenericParamDefKind.type bounds default synthetic =>
          if synthetic then none
          else
            let boundsStr :=
              if bounds.isEmpty then ""
              else ": " ++ String.intercalate " + " (render_generic_bound_list bounds)
            let defaultStr := match default with
              | some ty => " = " ++ render_type_inner ty false
              | none => ""
            some (name ++ boundsStr ++ defaultStr)
      | GenericParamDefKind.const type_ default =>
          let defaultStr := match default with
            | some e => " = " ++ e
            | none => ""
          some ("const " ++ name ++ ": " ++ render_type_inner type_ false ++ defaultStr)
termination_by p => sizeOf p
decreasing_by all_goals (simp_wf <;> omega)

/-- Embeds `Renderer::render_function_pointer`. -/
def render_function_pointer : FunctionPointer → String
  | FunctionPointer.mk decl =>
      let args := render_function_args decl
      let ret := render_return_type decl
      if ret = "" then "fn(" ++ args ++ ")" else "fn(" ++ args ++ ") -> " ++ ret
termination_by f => sizeOf f
decreasing_by all_goals (simp_wf <;> omega)

/-- Embeds `Renderer::render_function_args`. -/
def render_function_args : FnDecl → String
  | FnDecl.mk inputs _ => String.intercalate ", " (render_fn_inputs inputs)
termination_by d => sizeOf d
decreasing_by all_goals (simp_wf <;> omega)

/-- The `.map` loop of `render_function_args`. -/
def render_fn_inputs : List (String × Ty) → List String
  | [] => []
  | (name, ty) :: rest => render_fn_input name ty :: render_fn_inputs rest
termination_by l => sizeOf l
decreasing_by all_goals (simp_wf <;> omega)

/-- The per-argument closure of `render_function_args`, including the
special-casing of the `self` receiver. -/
def render_fn_input (name : String) (ty : Ty) : String :=
  if name = "self" then
    match h : ty with
    | Ty.borrowedRef _ mutable _ =>
        if mutable then "&mut self" else "&self"
    | Ty.resolvedPath (RPath.mk pname pargs) =>
        if pname = "Self" && pargs.isNone then "self"
        else "self: " ++ render_type_inner ty false
    | Ty.generic gname =>
        if gname = "Self" then "self" else "self: " ++ render_type_inner ty false
    | _ => "self: " ++ render_type_inner ty false
  else name ++ ": " ++ render_type_inner ty false
termination_by sizeOf ty + 1
decreasing_by all_goals ((try subst h); simp_wf <;> omega)

/-- Embeds `Renderer::render_return_type`. -/
def render_return_type : FnDecl → String
  | FnDecl.mk _ output =>
      match output with
      | some ty => render_type_inner ty false
      | none => ""
termination_by d => sizeOf d
decreasing_by all_goals (simp_wf <;> omega)

end

/-- Embeds `Renderer::render_type`: a type expression in non-nested position. -/
def render_type (ty : Ty) : String :=
  render_type_inner ty false

/-- Embeds `Renderer::render_generic_bounds`. -/
def render_generic_bounds (bounds : List GenericBound) : String :=
  String.intercalate " + " (render_generic_bound_list bounds)

/-- rustdoc `WherePredicate`. -/
inductive WherePredicate where
  | boundPredicate (type_ : Ty) (bounds : List GenericBound)
      (genericParams : List GenericParamDef)
  | lifetimePredicate (lifetime : String) (outlives : List String)
  | eqPredicate (lhs : Ty) (rhs : Term)

/-- rustdoc `Generics`. -/
structure Generics where
  params : List GenericParamDef
  where_predicates : List WherePredicate

/-- Whether a generic parameter definition is a synthetic type parameter;
this is the
`matches!(&param.kind, GenericParamDefKind::Type { synthetic, .. } if *synthetic)`
test of `render_where_predicate`. -/
def is_synthetic_type_param : GenericParamDef → Bool
  | GenericParamDef.mk _ (GenericParamDefKind.type _ _ synthetic) => synthetic
  | _ => false

/-- Embeds `Renderer::render_where_predicate`. -/
def render_where_predicate : WherePredicate → Option String
  | WherePredicate.boundPredicate type_ bounds genericParams =>
      let skip := match type_ with
        | Ty.generic _ => genericParams.any is_synthetic_type_param
        | _ => false
      if skip then none
      else
        let hrtb :=
          if !genericParams.isEmpty then
            let params := String.intercalate ", " (render_generic_param_def_list genericParams)
            if params = "" then "" else "for<" ++ params ++ "> "
          else ""
        let boundsStr := String.intercalate " + " (render_generic_bound_list bounds)
        some (hrtb ++ render_type type_ ++ ": " ++ boundsStr)
  | WherePredicate.lifetimePredicate lifetime outlives =>
      if outlives.isEmpty then some lifetime
      else some (lifetime ++ ": " ++ String.intercalate " + " outlives)
  | WherePredicate.eqPredicate lhs rhs =>
      some (render_type lhs ++ " = " ++ render_term rhs)

/-- Embeds `Renderer::render_generics`. -/
def render_generics (generics : Generics) : String :=
  let params := render_generic_param_def_list generics.params
  if params.isEmpty then "" else "<" ++ String.intercalate ", " params ++ ">"

/-- Embeds `Renderer::render_where_clause`. -/
def render_where_clause (generics : Generics) : String :=
  let predicates := generics.where_predicates.filterMap render_where_predicate
  if predicates.isEmpty then "" else " where " ++ String.intercalate ", " predicates

/-- rustdoc `Visibility`; the renderer only ever distinguishes `Public`
from everything else. -/
inductive Visibility where
  | public
  | default
  | crateRestricted
  | restricted
deriving DecidableEq

/-- The `match &item.visibility { Visibility::Public => "pub ", _ => "" }`
idiom repeated throughout the renderer. -/
def visibility_str : Visibility → String
  | Visibility.public => "pub "
  | _ => ""

/-- rustdoc `Module`: the renderer reads only `items`. -/
structure Module where
  items : List Nat

/-- rustdoc `StructKind`.  Tuple fields are `Option<Id>` in the upstream
schema (a `None` entry is a field stripped by rustdoc itself). -/
inductive StructKind where
  | unit
  | tuple (fields : List (Option Nat))
  | plain (fields : List Nat)

/-- rustdoc `Struct`. -/
structure Struct where
  kind : StructKind
  generics : Generics
  impls : List Nat

/-- rustdoc `Enum`: the renderer reads `generics` and `variants`. -/
structure Enum where
  generics : Generics
  variants : List Nat

/-- rustdoc `VariantKind`. -/
inductive VariantKind where
  | plain
  | tuple (fields : List (Option Nat))
  | struct (fields : List Nat)

/-- rustdoc `Discriminant`: the renderer reads only `expr`. -/
structure Discriminant where
  expr : String

/-- rustdoc `Variant`. -/
structure Variant where
  kind : VariantKind
  discriminant : Option Discriminant

/-- rustdoc `Trait`: the fields read by the renderer. -/
structure Trait where
  is_unsafe : Bool
  items : List Nat
  generics : Generics
  bounds : List GenericBound

/-- rustdoc `FunctionHeader`: the three qualifier flags read by the
renderer. -/
structure FunctionHeader where
  const_ : Bool
  unsafe_ : Bool
  async_ : Bool

/-- rustdoc `Function`. -/
structure Function where
  decl : FnDecl
  generics : Generics
  header : FunctionHeader
  has_body : Bool

/-- rustdoc `Import`. -/
structure Import where
  source : String
  name : String
  id : Option Nat
  glob : Bool

/-- rustdoc `Impl`: the fields read by the renderer. -/
structure Impl where
  is_unsafe : Bool
  generics : Generics
  trait_ : Option RPath
  for_ : Ty
  items : List Nat
  synthetic : Bool
  blanket_impl : Option Ty

/-- rustdoc `TypeAlias`. -/
structure TypeAlias where
  type_ : Ty
  generics : Generics

/-- rustdoc `MacroKind`. -/
inductive MacroKind where
  | derive
  | attr
  | bang

/-- rustdoc `ProcMacro`. -/
structure ProcMacro where
  kind : MacroKind
  helpers : List String

/-- rustdoc `ItemEnum`, restricted to the variants the renderer matches on;
`other` stands for every remaining upstream variant, all of which fall into
the catch-all arms of the renderer. -/
inductive ItemEnum where
  | module (m : Module)
  | struct_ (s : Struct)
  | enum_ (e : Enum)
  | trait_ (t : Trait)
  | import_ (i : Import)
  | function (f : Function)
  | constant (type_ : Ty) (const_ : ConstantExpr)
  | typeAlias (t : TypeAlias)
  | macroDef (body : String)
  | procMacro (p : ProcMacro)
  | variant (v : Variant)
  | structField (ty : Ty)
  | assocConst (type_ : Ty) (default : Option String)
  | assocType (generics : Generics) (bounds : List GenericBound) (default : Option Ty)
  | impl_ (i : Impl)
  | other

/-- rustdoc `Item`: the fields read by the renderer. -/
structure Item where
  name : Option String
  visibility : Visibility
  docs : Option String
  inner : ItemEnum

/-- rustdoc `Crate`: the root identifier and the index, modelled as an
association list from identifiers to items. -/
structure Crate where
  root : Nat
  index : List (Nat × Item)

/-- The `Renderer` configuration flags; the `RustFmt` formatter field is an
external collaborator and is abstracted as a function parameter of
`render`. -/
structure Renderer where
  render_auto_impls : Bool
  render_private_items : Bool
  render_blanket_impls : Bool

/-- Embeds `Renderer::new` / `Renderer::default`: all flags off. -/
def Renderer.new : Renderer :=
  { render_auto_impls := false
    render_private_items := false
    render_blanket_impls := false }

/-- The doc-comment loop of the item renderers: for each line of the doc
text, emit the given line prefix, the line, and a newline. -/
def doc_lines_with (pre : String) (docs : Option String) : String :=
  match docs with
  | some d => concat_map (fun l => pre ++ l ++ "\n") (rust_lines d)
  | none => ""

/-- The `RESERVED_WORDS` table declared inside `Renderer::render_name`. -/
def RESERVED_WORDS : List String :=
  ["abstract", "as", "become", "box", "break", "const", "continue", "crate", "do", "else",
   "enum", "extern", "false", "final", "fn", "for", "if", "impl", "in", "let", "loop",
   "macro", "match", "mod", "move", "mut", "override", "priv", "pub", "ref", "return",
   "self", "Self", "static", "struct", "super", "trait", "true", "try", "type", "typeof",
   "unsafe", "unsized", "use", "virtual", "where", "while", "yield"]

/-- Embeds `Renderer::render_name`. -/
def render_name (name : Option String) : String :=
  match name with
  | none => "?"
  | some n => if RESERVED_WORDS.contains n then "r#" ++ n else n

/-- The `FILTERED_TRAITS` denylist of `Renderer::should_render_impl`. -/
def FILTERED_TRAITS : List String :=
  ["Any", "Send", "Sync", "Unpin", "UnwindSafe", "RefUnwindSafe", "Borrow", "BorrowMut",
   "From", "Into", "TryFrom", "TryInto", "AsRef", "AsMut", "Default", "Debug", "PartialEq",
   "Eq", "PartialOrd", "Ord", "Hash", "Deref", "DerefMut", "Drop", "IntoIterator",
   "CloneToUninit", "ToOwned"]

/-- Embeds `Renderer::should_render_impl`. -/
def should_render_impl (r : Renderer) (impl_ : Impl) : Bool :=
  if impl_.synthetic && !r.render_auto_impls then false
  else
    let is_blanket := impl_.blanket_impl.isSome
    if is_blanket && !r.render_blanket_impls then false
    else if !r.render_auto_impls then
      match impl_.trait_ with
      | some trait_path =>
          let trait_name := last_segment trait_path.name
          !(FILTERED_TRAITS.contains trait_name && is_blanket)
      | none => true
    else true

/-- Embeds `Renderer::render_function`. -/
def render_function (item : Item) (is_trait_method : Bool) : String :=
  let visibility := visibility_str item.visibility
  let docs := doc_lines_with "/// " item.docs
  match item.inner with
  | ItemEnum.function function =>
      let generics := render_generics function.generics
      let args := render_function_args function.decl
      let return_type := render_return_type function.decl
      let where_clause := render_where_clause function.generics
      let prefixes :=
        (if function.header.const_ then ["const"] else []) ++
        (if function.header.unsafe_ then ["unsafe"] else []) ++
        (if function.header.async_ then ["async"] else [])
      let prefixStr :=
        if prefixes.isEmpty then "" else String.intercalate " " prefixes ++ " "
      let sig :=
        visibility ++ prefixStr ++ "fn " ++ render_name item.name ++ generics ++
        "(" ++ args ++ ")" ++
        (if return_type = "" then "" else " -> " ++ return_type) ++ where_clause
      docs ++ sig ++ (if is_trait_method && !function.has_body then ";\n\n" else " \x7b\x7d\n\n")
  | _ => docs

/-- Embeds `Renderer::render_constant`. -/
def render_constant (item : Item) : String :=
  let visibility := visibility_str item.visibility
  let docs := doc_lines_with "/// " item.docs
  match item.inner with
  | ItemEnum.constant type_ const_ =>
      docs ++ visibility ++ "const " ++ render_name item.name ++ ": " ++
      render_type type_ ++ " = " ++ const_.expr ++ ";\n\n"
  | _ => docs

/-- Embeds `Renderer::render_type_alias`. -/
def render_type_alias (item : Item) : String :=
  match item.inner with
  | ItemEnum.typeAlias type_alias =>
      let docs := doc_lines_with "/// " item.docs
      let visibility := visibility_str item.visibility
      let generics := render_generics type_alias.generics
      let where_clause := render_where_clause type_alias.generics
      docs ++ visibility ++ "type " ++ render_name item.name ++ generics ++ where_clause ++
      (if where_clause ≠ "" then "\n" else "") ++
      "= " ++ render_type type_alias.type_ ++ ";\n\n"
  | _ => ""

/-- Embeds `Renderer::render_associated_type`. -/
def render_associated_type (item : Item) : String :=
  match item.inner with
  | ItemEnum.assocType _ bounds default =>
      let boundsStr :=
        if !bounds.isEmpty then ": " ++ render_generic_bounds bounds else ""
      let defaultStr := match default with
        | some d => " = " ++ render_type d
        | none => ""
      "type " ++ (item.name.getD "?") ++ boundsStr ++ defaultStr ++ ";\n"
  | _ => ""

/-- Embeds `Renderer::render_trait_item`. -/
def render_trait_item (item : Item) : String :=
  match item.inner with
  | ItemEnum.function _ => render_function item true
  | ItemEnum.assocConst type_ default =>
      let defaultStr := match default with
        | some d => " = " ++ d
        | none => ""
      "const " ++ render_name item.name ++ ": " ++ render_type type_ ++ defaultStr ++ ";\n"
  | ItemEnum.assocType generics bounds default =>
      let boundsStr :=
        if !bounds.isEmpty then ": " ++ render_generic_bounds bounds else ""
      let genericsStr := render_generics generics
      let defaultStr := match default with
        | some d => " = " ++ render_type d
        | none => ""
      "type " ++ render_name item.name ++ genericsStr ++ boundsStr ++ defaultStr ++ ";\n"
  | _ => ""

/-- Embeds `Renderer::render_trait`. -/
def render_trait (c : Crate) (item : Item) : String :=
  let visibility := visibility_str item.visibility
  let docs := doc_lines_with "/// " item.docs
  match item.inner with
  | ItemEnum.trait_ trait_ =>
      let generics := render_generics trait_.generics
      let where_clause := render_where_clause trait_.generics
      let bounds :=
        if !trait_.bounds.isEmpty then ": " ++ render_generic_bounds trait_.bounds else ""
      let unsafePrefix := if trait_.is_unsafe then "unsafe " else ""
      docs ++ visibility ++ unsafePrefix ++ "trait " ++ render_name item.name ++ generics ++
      bounds ++ where_clause ++ " \x7b\n" ++
      concat_map (fun item_id =>
        match List.lookup item_id c.index with
        | some it => render_trait_item it
        | none => "") trait_.items ++
      "\x7d\n\n"
  | _ => docs

/-- Embeds `Renderer::render_impl_item`. -/
def render_impl_item (item : Item) : String :=
  match item.inner with
  | ItemEnum.function _ => render_function item false
  | ItemEnum.constant _ _ => render_constant item
  | ItemEnum.assocType _ _ _ => render_associated_type item
  | ItemEnum.typeAlias _ => render_type_alias item
  | _ => ""

/-- Embeds `Renderer::render_impl`. -/
def render_impl (r : Renderer) (c : Crate) (item : Item) : String :=
  match item.inner with
  | ItemEnum.impl_ impl_ =>
      if !(should_render_impl r impl_) then ""
      else
        let generics := render_generics impl_.generics
        let where_clause := render_where_clause impl_.generics
        let unsafePrefix := if impl_.is_unsafe then "unsafe " else ""
        let trait_part := match impl_.trait_ with
          | some trait_ =>
              let trait_path := render_path trait_
              if trait_path ≠ "" then trait_path ++ " for " else ""
          | none => ""
        let header :=
          unsafePrefix ++ "impl" ++ generics ++ " " ++ trait_part ++ render_type impl_.for_
        let header :=
          if where_clause ≠ "" then header ++ "\n" ++ where_clause else header
        header ++ " \x7b\n" ++
        concat_map (fun item_id =>
          match List.lookup item_id c.index with
          | some it =>
              if impl_.trait_.isSome || r.render_private_items ||
                 (it.visibility == Visibility.public)
              then render_impl_item it
              else ""
          | none => "") impl_.items ++
        "\x7d\n\n"
  | _ => ""

/-- Embeds `Renderer::render_struct_field`. -/
def render_struct_field (r : Renderer) (c : Crate) (field_id : Nat) : String :=
  match List.lookup field_id c.index with
  | some field_item =>
      if (field_item.visibility == Visibility.public) || r.render_private_items then
        let visibility := visibility_str field_item.visibility
        match field_item.inner with
        | ItemEnum.structField ty =>
            visibility ++ render_name field_item.name ++ ": " ++ render_type ty ++ ",\n"
        | _ => "// Unknown field type\n"
      else ""
  | none => ""

/-- The per-field closure of the tuple branch of `Renderer::render_struct`:
a private field becomes the placeholder token `_` when private items are
not rendered, a public (or flag-forced) field renders its visibility and
type, and an unresolvable or non-field item renders as empty text. -/
def tuple_field_str (r : Renderer) (c : Crate) (id : Nat) : String :=
  match List.lookup id c.index with
  | some field_item =>
      match field_item.inner with
      | ItemEnum.structField ty =>
          let visibility := visibility_str field_item.visibility
          if !r.render_private_items && !(field_item.visibility == Visibility.public) then "_"
          else visibility ++ render_type ty
      | _ => ""
  | none => ""

/-- Embeds `Renderer::render_struct`. -/
def render_struct (r : Renderer) (c : Crate) (item : Item) : String :=
  let visibility := visibility_str item.visibility
  let docs := doc_lines_with "/// " item.docs
  match item.inner with
  | ItemEnum.struct_ struct_ =>
      let generics := render_generics struct_.generics
      let where_clause := render_where_clause struct_.generics
      let body := match struct_.kind with
        | StructKind.unit =>
            visibility ++ "struct " ++ render_name item.name ++ generics ++ where_clause ++
            ";\n\n"
        | StructKind.tuple fields =>
            let fields_str :=
              String.intercalate ", " (fields.filterMap (fun f => f.map (tuple_field_str r c)))
            visibility ++ "struct " ++ render_name item.name ++ generics ++ "(" ++
            fields_str ++ ")" ++ where_clause ++ ";\n\n"
        | StructKind.plain fields =>
            visibility ++ "struct " ++ render_name item.name ++ generics ++ where_clause ++
            " \x7b\n" ++ concat_map (render_struct_field r c) fields ++ "\x7d\n\n"
      let impls := concat_map (fun impl_id =>
        match List.lookup impl_id c.index with
        | some impl_item =>
            match impl_item.inner with
            | ItemEnum.impl_ impl_ =>
                if should_render_impl r impl_ then render_impl r c impl_item else ""
            | _ => ""
        | none => "") struct_.impls
      docs ++ body ++ impls
  | _ => docs

/-- Embeds `Renderer::render_enum_variant`. -/
def render_enum_variant (r : Renderer) (c : Crate) (item : Item) : String :=
  let docs := doc_lines_with "    /// " item.docs
  match item.inner with
  | ItemEnum.variant variant =>
      let kindStr := match variant.kind with
        | VariantKind.plain => ""
        | VariantKind.tuple fields =>
            let fields_str :=
              String.intercalate ", " (fields.filterMap (fun f => f.map (fun id =>
                match List.lookup id c.index with
                | some field_item =>
                    match field_item.inner with
                    | ItemEnum.structField ty => render_type ty
                    | _ => ""
                | none => "")))
            "(" ++ fields_str ++ ")"
        | VariantKind.struct fields =>
            " \x7b\n" ++
            concat_map (fun field =>
              match List.lookup field c.index with
              | some _ => "        " ++ render_struct_field r c field ++ "\n"
              | none => "") fields ++
            "    \x7d"
      let discStr := match variant.discriminant with
        | some discriminant => " = " ++ discriminant.expr
        | none => ""
      docs ++ "    " ++ render_name item.name ++ kindStr ++ discStr ++ ",\n"
  | _ => docs

/-- Embeds `Renderer::render_enum`. -/
def render_enum (r : Renderer) (c : Crate) (item : Item) : String :=
  let visibility := visibility_str item.visibility
  let docs := doc_lines_with "/// " item.docs
  match item.inner with
  | ItemEnum.enum_ enum_ =>
      docs ++ visibility ++ "enum " ++ render_name item.name ++
      render_generics enum_.generics ++ render_where_clause enum_.generics ++ " \x7b\n" ++
      concat_map (fun variant_id =>
        match List.lookup variant_id c.index with
        | some variant_item => render_enum_variant r c variant_item
        | none => "") enum_.variants ++
      "\x7d\n\n"
  | _ => docs

/-- Embeds `Renderer::render_macro`. -/
def render_macro_item (item : Item) : String :=
  let docs := doc_lines_with "/// " item.docs
  match item.inner with
  | ItemEnum.macroDef body =>
      docs ++
      (if item.visibility == Visibility.public then "#[macro_export]\n" else "") ++
      body ++ "\n"
  | _ => docs

/-- Embeds `Renderer::render_proc_macro`. -/
def render_proc_macro_item (item : Item) : String :=
  let docs := doc_lines_with "/// " item.docs
  let fn_name := render_name item.name
  match item.inner with
  | ItemEnum.procMacro proc_macro_ =>
      let attrLine := match proc_macro_.kind with
        | MacroKind.derive =>
            if !proc_macro_.helpers.isEmpty then
              "#[proc_macro_derive(" ++ fn_name ++ ", attributes(" ++
              String.intercalate ", " proc_macro_.helpers ++ "))]\n"
            else
              "#[proc_macro_derive(" ++ fn_name ++ ")]\n"
        | MacroKind.attr => "#[proc_macro_attribute]\n"
        | MacroKind.bang => "#[proc_macro]\n"
      let argsRet := match proc_macro_.kind with
        | MacroKind.attr =>
            ("attr: proc_macro::TokenStream, item: proc_macro::TokenStream",
             "proc_macro::TokenStream")
        | _ => ("input: proc_macro::TokenStream", "proc_macro::TokenStream")
      docs ++ attrLine ++
      "pub fn " ++ fn_name ++ "(" ++ argsRet.1 ++ ") -> " ++ argsRet.2 ++ " \x7b\x7d\n"
  | _ => docs

/-- Whether the payload of an item is an import; this is the
`if let ItemEnum::Import(_) = &item.inner` test in `render_module`. -/
def is_import_item : ItemEnum → Bool
  | ItemEnum.import_ _ => true
  | _ => false

mutual

/-- Embeds `Renderer::render_item`.  The final `Nat` argument is the fuel bounding
the recursion through the item graph (the Rust source recurses without a
bound and would diverge on a cyclic index); each of the three mutually
recursive graph-walking functions consumes one unit of fuel on entry. -/
def render_item (r : Renderer) (c : Crate) (item : Item) (force_private : Bool) :
    Nat → String
  | 0 => ""
  | fuel + 1 =>
      if !force_private && !r.render_private_items &&
         !(item.visibility == Visibility.public) then ""
      else
        match item.inner with
        | ItemEnum.module _ => render_module r c item fuel
        | ItemEnum.struct_ _ => render_struct r c item
        | ItemEnum.enum_ _ => render_enum r c item
        | ItemEnum.trait_ _ => render_trait c item
        | ItemEnum.import_ _ => render_import r c item fuel
        | ItemEnum.function _ => render_function item false
        | ItemEnum.constant _ _ => render_constant item
        | ItemEnum.typeAlias _ => render_type_alias item
        | ItemEnum.macroDef _ => render_macro_item item
        | ItemEnum.procMacro _ => render_proc_macro_item item
        | _ => ""
termination_by fuel => (fuel, 0)

/-- Embeds `Renderer::render_module`. -/
def render_module (r : Renderer) (c : Crate) (item : Item) : Nat → String
  | 0 => ""
  | fuel + 1 =>
      let header := visibility_str item.visibility ++ "mod " ++ render_name item.name ++ " \x7b\n"
      let docsPart := match item.docs with
        | some d => concat_map (fun l => "    //! " ++ l ++ "\n") (rust_lines d) ++ "\n"
        | none => ""
      let body := match item.inner with
        | ItemEnum.module module => render_module_items r c module.items fuel
        | _ => ""
      header ++ docsPart ++ body ++ "\x7d\n\n"
termination_by fuel => (fuel, 0)

/-- The child loop of `Renderer::render_module`: a public import child is
routed through `render_import`, every other child through `render_item`. -/
def render_module_items (r : Renderer) (c : Crate) : List Nat → Nat → String
  | [], _ => ""
  | item_id :: rest, fuel =>
      (match List.lookup item_id c.index with
       | some it =>
           if is_import_item it.inner && (it.visibility == Visibility.public) then
             render_import r c it fuel
           else
             render_item r c it false fuel
       | none => "") ++ render_module_items r c rest fuel
termination_by ids fuel => (fuel, ids.length)

/-- Embeds `Renderer::render_import`. -/
def render_import (r : Renderer) (c : Crate) (item : Item) : Nat → String
  | 0 => ""
  | fuel + 1 =>
      match item.inner with
      | ItemEnum.import_ imp =>
          if imp.glob then
            match imp.id with
            | some source_id =>
                match List.lookup source_id c.index with
                | some source_item =>
                    match source_item.inner with
                    | ItemEnum.module module => render_glob_items r c module.items fuel
                    | _ => "pub use " ++ imp.source ++ "::*;\n"
                | none => "pub use " ++ imp.source ++ "::*;\n"
            | none => "pub use " ++ imp.source ++ "::*;\n"
          else
            match imp.id.bind (fun id => List.lookup id c.index) with
            | some imported_item => render_item r c imported_item true fuel
            | none =>
                doc_lines_with "/// " item.docs ++
                (if imp.name ≠ last_segment imp.source then
                  "pub use " ++ imp.source ++ " as " ++ imp.name ++ ";\n"
                 else
                  "pub use " ++ imp.source ++ ";\n")
      | _ => ""
termination_by fuel => (fuel, 0)

/-- The child loop of the resolved-glob case of `Renderer::render_import`:
each public child of the target module is rendered in place with the
force flag set. -/
def render_glob_items (r : Renderer) (c : Crate) : List Nat → Nat → String
  | [], _ => ""
  | item_id :: rest, fuel =>
      (match List.lookup item_id c.index with
       | some it =>
           if it.visibility == Visibility.public then
             render_item r c it true fuel
           else ""
       | none => "") ++ render_glob_items r c rest fuel
termination_by ids fuel => (fuel, ids.length)

end

/-- Embeds `Renderer::render`: look up the root item, render it (or nothing when
the root identifier is absent from the index), and pass the buffer to the
external text formatter `fmt`, whose `Result` is propagated as-is. -/
def render (fmt : String → Except String String) (r : Renderer) (c : Crate)
    (fuel : Nat) : Except String String :=
  let output := match List.lookup c.root c.index with
    | some root_item => render_item r c root_item false fuel
    | none => ""
  fmt output

/-- Modelled from the spec: the "suppress from output" marker on an enum
variant (the doc-hidden marker, independent of ordinary visibility) is
honoured by the external documentation provider, whose code is not part of
this repository: an item carrying the marker is absent from the model
index handed to the renderer.  Inside the renderer a suppressed variant is
therefore exactly one whose identifier does not resolve in the index. -/
def suppressed_from_output (c : Crate) (id : Nat) : Prop :=
  List.lookup id c.index = none

/-- Modelled from the spec: an item is "otherwise visible" when every
module of its owning module chain is public ("its owning module chain is
not entirely public" is the condition the spec gives for inlining).  The chain is
walked through the index: each module whose member list contains the
identifier must be public, and recursively so for its own owners; the fuel
bounds the walk. -/
def spec_owning_chain_public (c : Crate) (id : Nat) : Nat → Bool
  | 0 => true
  | fuel + 1 =>
      (c.index.filterMap (fun p =>
        match p.2.inner with
        | ItemEnum.module m => if m.items.contains id then some p.1 else none
        | _ => none)).all
        (fun parent =>
          (match List.lookup parent c.index with
           | some parentItem => parentItem.visibility == Visibility.public
           | none => false) &&
          spec_owning_chain_public c parent fuel)

/-- Empty generics, used by the concrete example crates below. -/
def no_generics : Generics :=
  { params := [], where_predicates := [] }

/-- Concrete input for the import claims: a crate whose root module holds a
public module `m` containing a public unit struct `S`, plus a non-glob
use of `m::S` whose target identifier resolves.  All modules in the
owning chain of `S` are public, so `S` is "otherwise visible". -/
def c1_struct_item : Item :=
  { name := some "S"
    visibility := Visibility.public
    docs := none
    inner := ItemEnum.struct_ { kind := StructKind.unit, generics := no_generics, impls := [] } }

def c1_import_item : Item :=
  { name := some "S"
    visibility := Visibility.public
    docs := none
    inner := ItemEnum.import_ { source := "m::S", name := "S", id := some 3, glob := false } }

def c1_crate : Crate :=
  { root := 0
    index :=
      [(0, { name := some "c1"
             visibility := Visibility.public
             docs := none
             inner := ItemEnum.module { items := [1, 2] } }),
       (1, { name := some "m"
             visibility := Visibility.public
             docs := none
             inner := ItemEnum.module { items := [3] } }),
       (2, c1_import_item),
       (3, c1_struct_item)] }

/-- Concrete input for the struct-field claims: a public plain struct `P`
with a public field `field1: i32` and a private field `field2: String`. -/
def c2_struct_item : Item :=
  { name := some "P"
    visibility := Visibility.public
    docs := none
    inner := ItemEnum.struct_
      { kind := StructKind.plain [2, 3], generics := no_generics, impls := [] } }

def c2_field1_item : Item :=
  { name := some "field1"
    visibility := Visibility.public
    docs := none
    inner := ItemEnum.structField (Ty.primitive "i32") }

def c2_field2_item : Item :=
  { name := some "field2"
    visibility := Visibility.default
    docs := none
    inner := ItemEnum.structField (Ty.resolvedPath (RPath.mk "String" none)) }

def c2_crate : Crate :=
  { root := 0
    index :=
      [(0, { name := some "c2"
             visibility := Visibility.public
             docs := none
             inner := ItemEnum.module { items := [1] } }),
       (1, c2_struct_item),
       (2, c2_field1_item),
       (3, c2_field2_item)] }

/-- Concrete input: a public tuple struct `T(String)` whose single field is
private. -/
def c3_tuple_item : Item :=
  { name := some "T"
    visibility := Visibility.public
    docs := none
    inner := ItemEnum.struct_
      { kind := StructKind.tuple [some 2], generics := no_generics, impls := [] } }

def c3_tuple_field_item : Item :=
  { name := some "0"
    visibility := Visibility.default
    docs := none
    inner := ItemEnum.structField (Ty.resolvedPath (RPath.mk "String" none)) }

def c3_tuple_crate : Crate :=
  { root := 0
    index :=
      [(0, { name := some "c3t"
             visibility := Visibility.public
             docs := none
             inner := ItemEnum.module { items := [1] } }),
       (1, c3_tuple_item),
       (2, c3_tuple_field_item)] }

/-- Concrete input: a public plain struct `Q` whose single field is
private. -/
def c3_plain_item : Item :=
  { name := some "Q"
    visibility := Visibility.public
    docs := none
    inner := ItemEnum.struct_
      { kind := StructKind.plain [2], generics := no_generics, impls := [] } }

def c3_plain_field_item : Item :=
  { name := some "x"
    visibility := Visibility.default
    docs := none
    inner := ItemEnum.structField (Ty.primitive "i32") }

def c3_plain_crate : Crate :=
  { root := 0
    index :=
      [(0, { name := some "c3p"
             visibility := Visibility.public
             docs := none
             inner := ItemEnum.module { items := [1] } }),
       (1, c3_plain_item),
       (2, c3_plain_field_item)] }

/-- A blanket implementation (over the generic parameter `T`) of the
denylisted structural trait `core::borrow::Borrow`. -/
def c4_denylisted_impl : Impl :=
  { is_unsafe := false
    generics := no_generics
    trait_ := some (RPath.mk "core::borrow::Borrow" none)
    for_ := Ty.generic "T"
    items := []
    synthetic := false
    blanket_impl := some (Ty.generic "T") }

/-- A blanket implementation of a user-defined trait `MyTrait`, not in the
denylist. -/
def c4_allowed_impl : Impl :=
  { is_unsafe := false
    generics := no_generics
    trait_ := some (RPath.mk "MyTrait" none)
    for_ := Ty.generic "T"
    items := []
    synthetic := false
    blanket_impl := some (Ty.generic "T") }

/-- The renderer configuration with blanket-impl rendering enabled and
auto-impl rendering off. -/
def blanket_renderer : Renderer :=
  { render_auto_impls := false
    render_private_items := false
    render_blanket_impls := true }

/-- Concrete input for the enum claim: a public enum `E` whose variant list
is `[2, 99, 3]`, where identifiers 2 and 3 resolve to plain variants `A`
and `B` and identifier 99 is absent from the index (the suppressed
variant). -/
def c5_enum_item : Item :=
  { name := some "E"
    visibility := Visibility.public
    docs := none
    inner := ItemEnum.enum_ { generics := no_generics, variants := [2, 99, 3] } }

def c5_enum_item_without : Item :=
  { name := some "E"
    visibility := Visibility.public
    docs := none
    inner := ItemEnum.enum_ { generics := no_generics, variants := [2, 3] } }

def c5_crate : Crate :=
  { root := 0
    index :=
      [(0, { name := some "c5"
             visibility := Visibility.public
             docs := none
             inner := ItemEnum.module { items := [1] } }),
       (1, c5_enum_item),
       (2, { name := some "A"
             visibility := Visibility.public
             docs := none
             inner := ItemEnum.variant { kind := VariantKind.plain, discriminant := none } }),
       (3, { name := some "B"
             visibility := Visibility.public
             docs := none
             inner := ItemEnum.variant { kind := VariantKind.plain, discriminant := none } })] }

/-- Concrete input for the glob-import claim: a glob import whose target
resolves to a module with one public and one private child. -/
def c6_import_item : Item :=
  { name := some "inner"
    visibility := Visibility.public
    docs := none
    inner := ItemEnum.import_ { source := "inner", name := "inner", id := some 1, glob := true } }

def c6_module_item : Item :=
  { name := some "inner"
    visibility := Visibility.public
    docs := none
    inner := ItemEnum.module { items := [3, 4] } }

def c6_crate : Crate :=
  { root := 0
    index :=
      [(0, { name := some "c6"
             visibility := Visibility.public
             docs := none
             inner := ItemEnum.module { items := [1, 2] } }),
       (1, c6_module_item),
       (2, c6_import_item),
       (3, { name := some "A"
             visibility := Visibility.public
             docs := none
             inner := ItemEnum.struct_
               { kind := StructKind.unit, generics := no_generics, impls := [] } }),
       (4, { name := some "B"
             visibility := Visibility.default
             docs := none
             inner := ItemEnum.struct_
               { kind := StructKind.unit, generics := no_generics, impls := [] } })] }

/-- Concrete input: a glob import whose target identifier is absent, so the
renderer must fall back to the textual re-export. -/
def c6_unresolved_import_item : Item :=
  { name := some "stuff"
    visibility := Visibility.public
    docs := none
    inner := ItemEnum.import_ { source := "ext::stuff", name := "stuff", id := none, glob := true } }

def c6_unresolved_crate : Crate :=
  { root := 0
    index :=
      [(0, { name := some "c6u"
             visibility := Visibility.public
             docs := none
             inner := ItemEnum.module { items := [1] } }),
       (1, c6_unresolved_import_item)] }

/-- A dyn-trait object type with an explicit lifetime bound. -/
def c7_dyn_with_lifetime : Ty :=
  Ty.dynTrait (DynTrait.mk [PolyTrait.mk (RPath.mk "Any" none) []] (some "static"))

/-- Concrete input for the missing-root claim: a crate whose root
identifier resolves to nothing. -/
def c9_crate : Crate :=
  { root := 0, index := [] }

/-! ### Helper lemmas shared by the claim proofs -/

theorem concat_map_append (f : α → String) (xs ys : List α) :
    concat_map f (xs ++ ys) = concat_map f xs ++ concat_map f ys := by
  induction xs with
  | nil => simp [concat_map, String.empty_append]
  | cons x xs ih => simp [concat_map, ih, String.append_assoc]

theorem render_struct_field_private (r : Renderer) (c : Crate) (fid : Nat) (fi : Item)
    (hflag : r.render_private_items = false)
    (hlook : List.lookup fid c.index = some fi)
    (hvis : fi.visibility ≠ Visibility.public) :
    render_struct_field r c fid = "" := by
  simp [render_struct_field, hlook, hflag, beq_eq_false_iff_ne.mpr hvis]

theorem tuple_field_str_private (r : Renderer) (c : Crate) (fid : Nat) (fi : Item) (ty : Ty)
    (hflag : r.render_private_items = false)
    (hlook : List.lookup fid c.index = some fi)
    (hty : fi.inner = ItemEnum.structField ty)
    (hvis : fi.visibility ≠ Visibility.public) :
    tuple_field_str r c fid = "_" := by
  simp [tuple_field_str, hlook, hty, hflag, beq_eq_false_iff_ne.mpr hvis]

theorem private_plain_fields_render_empty (r : Renderer) (c : Crate) (fields : List Nat)
    (hflag : r.render_private_items = false)
    (h : ∀ fid ∈ fields, ∃ fi, List.lookup fid c.index = some fi ∧
        fi.visibility ≠ Visibility.public) :
    concat_map (render_struct_field r c) fields = "" := by
  induction fields with
  | nil => rfl
  | cons f fs ih =>
      obtain ⟨fi, hl, hv⟩ := h f (by simp)
      have hrest := ih (fun fid hm => h fid (by simp [hm]))
      simp [concat_map, render_struct_field_private r c f fi hflag hl hv, hrest,
        String.empty_append]

theorem private_tuple_fields_render_placeholders (r : Renderer) (c : Crate)
    (fields : List (Option Nat))
    (hflag : r.render_private_items = false)
    (h : ∀ f ∈ fields, ∃ id fi ty, f = some id ∧ List.lookup id c.index = some fi ∧
        fi.inner = ItemEnum.structField ty ∧ fi.visibility ≠ Visibility.public) :
    fields.filterMap (fun f => f.map (tuple_field_str r c)) =
      List.replicate fields.length "_" := by
  induction fields with
  | nil => rfl
  | cons f fs ih =>
      obtain ⟨id, fi, ty, hf, hl, hty, hv⟩ := h f (by simp)
      have hrest := ih (fun g hm => h g (by simp [hm]))
      subst hf
      simp [List.filterMap_cons, hrest, tuple_field_str_private r c id fi ty hflag hl hty hv,
        List.replicate]

theorem render_impl_not_selected (r : Renderer) (c : Crate) (item : Item) (i : Impl)
    (hinner : item.inner = ItemEnum.impl_ i)
    (hskip : should_render_impl r i = false) :
    render_impl r c item = "" := by
  simp [render_impl, hinner, hskip]

theorem render_glob_items_eq_concat_map (r : Renderer) (c : Crate) (ids : List Nat)
    (fuel : Nat) :
    render_glob_items r c ids fuel =
      concat_map (fun cid =>
        match List.lookup cid c.index with
        | some child =>
            if child.visibility == Visibility.public then render_item r c child true fuel
            else ""
        | none => "") ids := by
  induction ids with
  | nil => simp [render_glob_items, concat_map]
  | cons x xs ih => simp [render_glob_items, concat_map, ih]

/-! ### Claim theorems -/

/-- Claim C4: with auto-impl rendering off, a blanket implementation whose
trait name (last `::`-separated segment) is in the `FILTERED_TRAITS`
denylist is never selected for rendering, even when blanket-impl rendering
is enabled (and so `render_impl` emits nothing for it), while a
non-synthetic blanket implementation of a trait outside the denylist is
selected when blanket-impl rendering is enabled. -/
theorem claim_c4_denylist (r : Renderer) (i : Impl) (tp : RPath)
    (hauto : r.render_auto_impls = false)
    (htrait : i.trait_ = some tp) :
    (i.blanket_impl.isSome = true →
       FILTERED_TRAITS.contains (last_segment tp.name) = true →
       should_render_impl r i = false ∧
       ∀ (c : Crate) (item : Item), item.inner = ItemEnum.impl_ i →
         render_impl r c item = "")
    ∧ (i.synthetic = false →
       i.blanket_impl.isSome = true →
       r.render_blanket_impls = true →
       FILTERED_TRAITS.contains (last_segment tp.name) = false →
       should_render_impl r i = true) := by
  constructor
  · intro hblanket hdeny
    have hmem : last_segment tp.name ∈ FILTERED_TRAITS := List.elem_iff.mp hdeny
    have hfalse : should_render_impl r i = false := by
      simp [should_render_impl, hauto, htrait, hblanket]
      intro _ _
      exact hmem
    exact ⟨hfalse, fun c item hinner => render_impl_not_selected r c item i hinner hfalse⟩
  · intro hsyn hblanket hflag hdeny
    have hnmem : last_segment tp.name ∉ FILTERED_TRAITS := by
      intro hm
      have hcon : FILTERED_TRAITS.contains (last_segment tp.name) = true :=
        List.elem_iff.mpr hm
      rw [hcon] at hdeny
      simp at hdeny
    simp [should_render_impl, hauto, htrait, hblanket, hsyn, hflag]
    exact hnmem

/-- Claim C4 witness: with blanket-impl rendering enabled and auto-impl
rendering off, the blanket `core::borrow::Borrow` impl is suppressed while
the blanket `MyTrait` impl is selected. -/
theorem claim_c4_denylist_witness :
    should_render_impl blanket_renderer c4_denylisted_impl = false ∧
    should_render_impl blanket_renderer c4_allowed_impl = true :=
  ⟨((claim_c4_denylist blanket_renderer c4_denylisted_impl
      (RPath.mk "core::borrow::Borrow" none) rfl rfl).1 rfl (by decide)).1,
   (claim_c4_denylist blanket_renderer c4_allowed_impl
      (RPath.mk "MyTrait" none) rfl rfl).2 rfl rfl rfl (by decide)⟩

/-- Claim C7: in `render_type_inner`, a dyn-trait object carrying an
explicit lifetime bound is wrapped in parentheses exactly when rendered in
nested position; a dyn-trait object without a lifetime bound, and every
other type case, renders identically in nested and non-nested position. -/
theorem claim_c7_dyn_parentheses (ty : Ty) :
    (∀ dt, ty = Ty.dynTrait dt → (DynTrait.lifetime dt).isSome = true →
       render_type_inner ty true = "(" ++ render_type_inner ty false ++ ")")
    ∧ ((∀ dt, ty = Ty.dynTrait dt → DynTrait.lifetime dt = none) →
       render_type_inner ty true = render_type_inner ty false) := by
  constructor
  · rintro ⟨traits, lifetime⟩ rfl hlt
    obtain ⟨lt, rfl⟩ := Option.isSome_iff_exists.mp hlt
    simp [render_type_inner]
  · intro h
    cases ty with
    | resolvedPath p => cases p <;> simp [render_type_inner]
    | dynTrait dt =>
        cases dt with
        | mk traits lifetime =>
            have hlt := h (DynTrait.mk traits lifetime) rfl
            simp only [DynTrait.lifetime] at hlt
            subst hlt
            simp [render_type_inner]
    | generic s => simp [render_type_inner.eq_def]
    | primitive s => simp [render_type_inner.eq_def]
    | functionPointer f => simp [render_type_inner]
    | tuple types => simp [render_type_inner]
    | slice t => simp [render_type_inner]
    | array t l => simp [render_type_inner]
    | implTrait bs => simp [render_type_inner]
    | infer => simp [render_type_inner]
    | rawPointer m t => simp [render_type_inner]
    | borrowedRef lt m t => cases lt <;> simp [render_type_inner]
    | qualifiedPath n a s t => cases t <;> simp [render_type_inner]
    | pat => simp [render_type_inner]

/-- Claim C7 witness: a concrete dyn-trait type with lifetime bound is
parenthesised in nested position, and a concrete primitive type renders
identically in both positions. -/
theorem claim_c7_dyn_parentheses_witness :
    render_type_inner c7_dyn_with_lifetime true =
      "(" ++ render_type_inner c7_dyn_with_lifetime false ++ ")" ∧
    render_type_inner (Ty.primitive "i32") true =
      render_type_inner (Ty.primitive "i32") false :=
  ⟨(claim_c7_dyn_parentheses c7_dyn_with_lifetime).1
      (DynTrait.mk [PolyTrait.mk (RPath.mk "Any" none) []] (some "static")) rfl rfl,
   (claim_c7_dyn_parentheses (Ty.primitive "i32")).2 (fun dt h => by cases h)⟩

/-- Claim C9: when the root identifier of the crate is absent from the index,
`render` hands the empty buffer to the formatter and returns its result —
the missing root is silently rendered as no output rather than an error. -/
theorem claim_c9_missing_root (fmt : String → Except String String) (r : Renderer)
    (c : Crate) (fuel : Nat)
    (h : List.lookup c.root c.index = none) :
    render fmt r c fuel = fmt "" := by
  simp [render, h]

/-- Claim C9 witness: on the concrete empty-index crate, with a formatter
that succeeds, `render` returns `Ok` of the formatted empty string. -/
theorem claim_c9_missing_root_witness :
    render Except.ok Renderer.new c9_crate 0 = Except.ok "" :=
  claim_c9_missing_root Except.ok Renderer.new c9_crate 0 rfl

/-- Claim C10: `render_name` is total over optional names — a reserved-word
name gains the `r#` raw-identifier prefix, any other name is emitted
unchanged, and a missing name renders as the placeholder `?`. -/
theorem claim_c10_render_name :
    render_name none = "?" ∧
    (∀ n, n ∈ RESERVED_WORDS → render_name (some n) = "r#" ++ n) ∧
    (∀ n, n ∉ RESERVED_WORDS → render_name (some n) = n) := by
  refine ⟨rfl, ?_, ?_⟩
  · intro n h
    have hc : RESERVED_WORDS.contains n = true := List.elem_iff.mpr h
    simp only [render_name]
    rw [hc]
    simp
  · intro n h
    have hc : RESERVED_WORDS.contains n = false := by
      cases hcn : RESERVED_WORDS.contains n
      · rfl
      · exact absurd (List.elem_iff.mp hcn) h
    simp only [render_name]
    rw [hc]
    simp

/-- Claim C10 witness: the reserved word `try` gains the raw prefix, the
ordinary name `foo` is unchanged, and the missing name renders as `?`. -/
theorem claim_c10_render_name_witness :
    render_name none = "?" ∧
    render_name (some "try") = "r#try" ∧
    render_name (some "foo") = "foo" :=
  ⟨claim_c10_render_name.1,
   claim_c10_render_name.2.1 "try" (by decide),
   claim_c10_render_name.2.2 "foo" (by decide)⟩

/-- Claim C1 counterexample: the non-glob import `pub use m::S` resolves to
the struct `S`, whose owning module chain (`c1` → `m`) is entirely public,
so `S` is otherwise visible; the claim predicts such a target is not
inlined (that it falls through to the textual `pub use m::S;` re-export),
but the renderer inlines it as `pub struct S;` nonetheless. -/
theorem claim_c1_counterexample :
    spec_owning_chain_public c1_crate 3 4 = true ∧
    render_import Renderer.new c1_crate c1_import_item (1 + 1 + 1) = "pub struct S;\n\n" ∧
    render_import Renderer.new c1_crate c1_import_item (1 + 1 + 1) ≠ "pub use m::S;\n" := by
  have h2 : render_import Renderer.new c1_crate c1_import_item (1 + 1 + 1) =
      "pub struct S;\n\n" := by
    simp [render_import, render_item, render_struct, render_generics, render_where_clause,
      render_generic_param_def_list, render_name, RESERVED_WORDS, visibility_str,
      doc_lines_with, concat_map, c1_crate, c1_import_item, c1_struct_item, no_generics,
      Renderer.new, List.lookup]
  refine ⟨by decide, h2, ?_⟩
  rw [h2]
  decide

/-- Claim C1 (amended): every non-glob import whose target identifier
resolves in the model index is inline-rendered in place with the
force-public flag set, regardless of whether the target would otherwise be
visible; only a target that does not resolve falls back to the textual
re-export statement. -/
theorem claim_c1_resolved_import_inlined (r : Renderer) (c : Crate) (item : Item)
    (imp : Import) (tid : Nat) (titem : Item) (fuel : Nat)
    (hinner : item.inner = ItemEnum.import_ imp)
    (hglob : imp.glob = false)
    (hid : imp.id = some tid)
    (hlook : List.lookup tid c.index = some titem) :
    render_import r c item (fuel + 1) = render_item r c titem true fuel := by
  simp [render_import, hinner, hglob, hid, hlook]

/-- Claim C1 witness: on the concrete crate, the resolved import of the
otherwise-visible struct `S` is rendered by inlining `S` with the
force-public flag. -/
theorem claim_c1_resolved_import_inlined_witness :
    render_import Renderer.new c1_crate c1_import_item (1 + 1) =
      render_item Renderer.new c1_crate c1_struct_item true 1 :=
  claim_c1_resolved_import_inlined Renderer.new c1_crate c1_import_item
    { source := "m::S", name := "S", id := some 3, glob := false } 3 c1_struct_item 1
    rfl rfl rfl rfl

/-- Claim C2 counterexample: in the plain-shaped struct
`pub struct P { pub field1: i32, field2: String }` under default options,
the private field `field2` is removed entirely (it renders as the empty
string, not as a placeholder token), so the struct renders with one field
slot instead of the claimed two. -/
theorem claim_c2_counterexample :
    render_struct Renderer.new c2_crate c2_struct_item =
      "pub struct P \x7b\npub field1: i32,\n\x7d\n\n" ∧
    render_struct_field Renderer.new c2_crate 3 = "" ∧
    ("" : String) ≠ "_" := by
  refine ⟨?_, ?_, by decide⟩
  · simp [render_struct, render_struct_field, render_generics, render_where_clause,
      render_generic_param_def_list, render_name, RESERVED_WORDS, visibility_str,
      doc_lines_with, concat_map, render_type, render_type_inner, c2_crate, c2_struct_item,
      c2_field1_item, c2_field2_item, no_generics, Renderer.new, List.lookup]
  · simp [render_struct_field, c2_crate, c2_field2_item, Renderer.new, List.lookup]

/-- Claim C2 (amended): with the render-private-items flag off, arity is
preserved for tuple-shaped structs only — every present field entry of a
tuple struct yields exactly one slot and the slot of a non-public field is the
placeholder token `_` — while in plain-shaped structs a non-public field
is removed entirely (it contributes the empty string). -/
theorem claim_c2_field_slots :
    (∀ (r : Renderer) (c : Crate) (fields : List (Option Nat)),
       (∀ f ∈ fields, f.isSome = true) →
       (fields.filterMap (fun f => f.map (tuple_field_str r c))).length = fields.length)
    ∧ (∀ (r : Renderer) (c : Crate) (id : Nat) (fi : Item) (ty : Ty),
       r.render_private_items = false →
       List.lookup id c.index = some fi →
       fi.inner = ItemEnum.structField ty →
       fi.visibility ≠ Visibility.public →
       tuple_field_str r c id = "_")
    ∧ (∀ (r : Renderer) (c : Crate) (fid : Nat) (fi : Item),
       r.render_private_items = false →
       List.lookup fid c.index = some fi →
       fi.visibility ≠ Visibility.public →
       render_struct_field r c fid = "") := by
  refine ⟨?_, tuple_field_str_private, render_struct_field_private⟩
  intro r c fields h
  induction fields with
  | nil => rfl
  | cons f fs ih =>
      obtain ⟨a, rfl⟩ := Option.isSome_iff_exists.mp (h f (by simp))
      simp [List.filterMap_cons, ih (fun g hm => h g (by simp [hm]))]

/-- Claim C2 witness: on the concrete struct `P`, the two present field
entries yield two slots, the tuple slot of the private field is `_`, and its
plain-shape rendering is the empty string. -/
theorem claim_c2_field_slots_witness :
    (([some 2, some 3] : List (Option Nat)).filterMap
        (fun f => f.map (tuple_field_str Renderer.new c2_crate))).length = 2 ∧
    tuple_field_str Renderer.new c2_crate 3 = "_" ∧
    render_struct_field Renderer.new c2_crate 3 = "" :=
  ⟨claim_c2_field_slots.1 Renderer.new c2_crate [some 2, some 3] (by decide),
   claim_c2_field_slots.2.1 Renderer.new c2_crate 3 c2_field2_item
     (Ty.resolvedPath (RPath.mk "String" none)) rfl rfl rfl (by decide),
   claim_c2_field_slots.2.2 Renderer.new c2_crate 3 c2_field2_item rfl rfl (by decide)⟩

/-- Claim C3 counterexample: the all-private tuple struct
`pub struct T(String)` under default options renders with a placeholder
slot, `pub struct T(_);`, not with the empty field list `pub struct T();`
the claim asserts for every struct shape. -/
theorem claim_c3_counterexample :
    render_struct Renderer.new c3_tuple_crate c3_tuple_item = "pub struct T(_);\n\n" ∧
    render_struct Renderer.new c3_tuple_crate c3_tuple_item ≠ "pub struct T();\n\n" := by
  have h1 : render_struct Renderer.new c3_tuple_crate c3_tuple_item =
      "pub struct T(_);\n\n" := by
    simp [render_struct, tuple_field_str, render_generics, render_where_clause,
      render_generic_param_def_list, render_name, RESERVED_WORDS, visibility_str,
      doc_lines_with, concat_map, c3_tuple_crate, c3_tuple_item, c3_tuple_field_item,
      no_generics, Renderer.new, List.lookup]
    all_goals decide
  refine ⟨h1, ?_⟩
  rw [h1]
  decide

/-- Claim C3 (amended): under default options a struct whose fields are all
non-public is not suppressed — its declaration is still emitted — and its
field list renders empty for the plain shape, while for the tuple shape it
renders as one placeholder slot per declared field. -/
theorem claim_c3_private_fields :
    (∀ (r : Renderer) (c : Crate) (item : Item) (s : Struct) (fields : List Nat),
       r.render_private_items = false →
       item.inner = ItemEnum.struct_ s →
       item.docs = none →
       s.impls = [] →
       s.kind = StructKind.plain fields →
       (∀ fid ∈ fields, ∃ fi, List.lookup fid c.index = some fi ∧
           fi.visibility ≠ Visibility.public) →
       render_struct r c item =
         visibility_str item.visibility ++ "struct " ++ render_name item.name ++
         render_generics s.generics ++ render_where_clause s.generics ++
         " \x7b\n" ++ "\x7d\n\n")
    ∧ (∀ (r : Renderer) (c : Crate) (item : Item) (s : Struct) (fields : List (Option Nat)),
       r.render_private_items = false →
       item.inner = ItemEnum.struct_ s →
       item.docs = none →
       s.impls = [] →
       s.kind = StructKind.tuple fields →
       (∀ f ∈ fields, ∃ id fi ty, f = some id ∧ List.lookup id c.index = some fi ∧
           fi.inner = ItemEnum.structField ty ∧ fi.visibility ≠ Visibility.public) →
       render_struct r c item =
         visibility_str item.visibility ++ "struct " ++ render_name item.name ++
         render_generics s.generics ++ "(" ++
         String.intercalate ", " (List.replicate fields.length "_") ++ ")" ++
         render_where_clause s.generics ++ ";\n\n") := by
  constructor
  · intro r c item s fields hflag hinner hdocs himpls hkind hfields
    rw [render_struct]
    simp only [hinner, hdocs, hkind, himpls]
    rw [private_plain_fields_render_empty r c fields hflag hfields]
    simp [doc_lines_with, concat_map, String.append_empty, String.empty_append]
  · intro r c item s fields hflag hinner hdocs himpls hkind hfields
    rw [render_struct]
    simp only [hinner, hdocs, hkind, himpls]
    rw [private_tuple_fields_render_placeholders r c fields hflag hfields]
    simp [doc_lines_with, concat_map, String.append_empty, String.empty_append]

/-- Claim C3 witness: the concrete all-private plain struct `Q` renders
with an empty field list and the concrete all-private tuple struct `T`
renders with one placeholder slot; neither struct is suppressed. -/
theorem claim_c3_private_fields_witness :
    render_struct Renderer.new c3_plain_crate c3_plain_item =
      visibility_str c3_plain_item.visibility ++ "struct " ++ render_name c3_plain_item.name ++
      render_generics no_generics ++ render_where_clause no_generics ++
      " \x7b\n" ++ "\x7d\n\n" ∧
    render_struct Renderer.new c3_tuple_crate c3_tuple_item =
      visibility_str c3_tuple_item.visibility ++ "struct " ++ render_name c3_tuple_item.name ++
      render_generics no_generics ++ "(" ++
      String.intercalate ", " (List.replicate 1 "_") ++ ")" ++
      render_where_clause no_generics ++ ";\n\n" :=
  ⟨claim_c3_private_fields.1 Renderer.new c3_plain_crate c3_plain_item
     { kind := StructKind.plain [2], generics := no_generics, impls := [] } [2]
     rfl rfl rfl rfl rfl
     (by
       intro fid hm
       simp at hm
       subst hm
       exact ⟨c3_plain_field_item, rfl, by decide⟩),
   claim_c3_private_fields.2 Renderer.new c3_tuple_crate c3_tuple_item
     { kind := StructKind.tuple [some 2], generics := no_generics, impls := [] } [some 2]
     rfl rfl rfl rfl rfl
     (by
       intro f hm
       simp at hm
       subst hm
       exact ⟨2, c3_tuple_field_item, Ty.resolvedPath (RPath.mk "String" none),
         rfl, rfl, rfl, by decide⟩)⟩

/-- Claim C5: an enum variant whose identifier is suppressed from the model
index (the doc-hidden "suppress from output" marker honoured by the
external provider) contributes nothing to the rendered enum body: the enum
renders exactly as if the variant were not listed. -/
theorem claim_c5_suppressed_variant (r : Renderer) (c : Crate) (item : Item) (e : Enum)
    (pre post : List Nat) (hid : Nat)
    (hinner : item.inner = ItemEnum.enum_ e)
    (hvars : e.variants = pre ++ hid :: post)
    (hsup : suppressed_from_output c hid) :
    render_enum r c item =
      render_enum r c { item with inner := ItemEnum.enum_ { e with variants := pre ++ post } } := by
  have hlook : List.lookup hid c.index = none := hsup
  simp only [render_enum, hinner, hvars]
  rw [concat_map_append, concat_map_append]
  simp [concat_map, hlook, String.empty_append]

/-- Claim C5 witness: the concrete enum `E` with variant list `[2, 99, 3]`,
where 99 is absent from the index, renders identically to the same enum
with variant list `[2, 3]`. -/
theorem claim_c5_suppressed_variant_witness :
    render_enum Renderer.new c5_crate c5_enum_item =
      render_enum Renderer.new c5_crate c5_enum_item_without :=
  claim_c5_suppressed_variant Renderer.new c5_crate c5_enum_item
    { generics := no_generics, variants := [2, 99, 3] } [2] [3] 99 rfl rfl rfl

/-- Claim C6: a glob import whose target identifier resolves to a module in
the index is rendered by inline-rendering every public child of that
module at the call site (no `use` statement is emitted), and a glob import
whose target does not resolve does not abort rendering but falls back to
the textual re-export `pub use <source>::*;`. -/
theorem claim_c6_glob_import (r : Renderer) (c : Crate) (item : Item) (imp : Import)
    (fuel : Nat)
    (hinner : item.inner = ItemEnum.import_ imp)
    (hglob : imp.glob = true) :
    (∀ (sid : Nat) (mitem : Item) (m : Module),
       imp.id = some sid →
       List.lookup sid c.index = some mitem →
       mitem.inner = ItemEnum.module m →
       render_import r c item (fuel + 1) =
         concat_map (fun cid =>
           match List.lookup cid c.index with
           | some child =>
               if child.visibility == Visibility.public then render_item r c child true fuel
               else ""
           | none => "") m.items)
    ∧ (imp.id.bind (fun id => List.lookup id c.index) = none →
       render_import r c item (fuel + 1) = "pub use " ++ imp.source ++ "::*;\n") := by
  constructor
  · intro sid mitem m hid hlook hmod
    simp only [render_import, hinner, hglob, hid, hlook, hmod, if_true]
    exact render_glob_items_eq_concat_map r c m.items fuel
  · intro hnone
    cases hopt : imp.id with
    | none => simp [render_import, hinner, hglob, hopt]
    | some sid =>
        rw [hopt, Option.some_bind] at hnone
        simp [render_import, hinner, hglob, hopt, hnone]

/-- Claim C6 witness: the concrete resolved glob import over the module
with children `[3, 4]` renders as the concatenation of the
inline renderings of its public children, and the concrete unresolved glob import
falls back to `pub use ext::stuff::*;`. -/
theorem claim_c6_glob_import_witness :
    render_import Renderer.new c6_crate c6_import_item (1 + 1) =
      concat_map (fun cid =>
        match List.lookup cid c6_crate.index with
        | some child =>
            if child.visibility == Visibility.public
            then render_item Renderer.new c6_crate child true 1 else ""
        | none => "") [3, 4] ∧
    render_import Renderer.new c6_unresolved_crate c6_unresolved_import_item (0 + 1) =
      "pub use " ++ "ext::stuff" ++ "::*;\n" :=
  ⟨(claim_c6_glob_import Renderer.new c6_crate c6_import_item
      { source := "inner", name := "inner", id := some 1, glob := true } 1 rfl rfl).1
      1 c6_module_item { items := [3, 4] } rfl rfl rfl,
   (claim_c6_glob_import Renderer.new c6_unresolved_crate c6_unresolved_import_item
      { source := "ext::stuff", name := "stuff", id := none, glob := true } 0 rfl rfl).2 rfl⟩

/-- Claim C8: rendering is deterministic — the embedded `render` is a pure
function, so the same (filtered) model and configuration always produce
the same output text — and the module-child rendering is a homomorphism
over the declared child list, so members are emitted in the declared
order of the model and never re-sorted. -/
theorem claim_c8_deterministic_ordered :
    (∀ (fmt : String → Except String String) (r : Renderer) (c : Crate) (fuel : Nat),
       render fmt r c fuel = render fmt r c fuel)
    ∧ (∀ (r : Renderer) (c : Crate) (xs ys : List Nat) (fuel : Nat),
       render_module_items r c (xs ++ ys) fuel =
         render_module_items r c xs fuel ++ render_module_items r c ys fuel) := by
  constructor
  · intro fmt r c fuel
    rfl
  · intro r c xs ys fuel
    induction xs with
    | nil => simp [render_module_items, String.empty_append]
    | cons x xs ih => simp [render_module_items, ih, String.append_assoc]

end Ruskel
